import Mathlib

/-!
Verification of the fakecam resource-supervisor core against its
natural-language specification.

The definitions below are a shallow embedding of the Python sources:

* `fakecam/utils/process_manager.py` (ManagedProcess, ProcessRegistry)
* `fakecam/core/device_setup.py` (VideoDeviceManager, AudioDeviceManager, DeviceManager)
* `fakecam/core/video_manager.py` and `fakecam/core/audio_manager.py`
* `fakecam/utils/tts_engines.py` (TTSManager)

External effects (subprocess outcomes, filesystem probes, OS device state)
are made explicit: each operation takes an environment record describing the
outcome of every external call it performs, and world records describe the
OS-visible state (loaded modules, device nodes, sinks).  Control flow,
state updates and return values mirror the Python line by line.
-/

namespace Fakecam

/-! ## Embedding of fakecam/utils/config.py (ProcessState) -/

/-- ProcessState enumeration from config.py. -/
inductive ProcessState
  | stopped
  | starting
  | running
  | stopping
  | error
deriving DecidableEq, Repr

/-! ## Embedding of fakecam/utils/process_manager.py -/

/-- The native OS process handle held in `self.proc` (a subprocess.Popen).
`alive` records what `poll()` reports at the next probe. -/
structure ProcHandle where
  pid : Nat
  alive : Bool
deriving DecidableEq, Repr

/-- State of one ManagedProcess instance: fields `name`, `state`, `proc`,
`_pid` of the Python class. -/
structure ManagedProcess where
  name : String
  state : ProcessState
  proc : Option ProcHandle
  pidField : Option Nat
deriving DecidableEq, Repr

/-- ManagedProcess.__init__. -/
def ManagedProcess.mk0 (name : String) : ManagedProcess :=
  { name := name, state := .stopped, proc := none, pidField := none }

/-- ManagedProcess._is_alive: `self.proc is not None and self.proc.poll() is None`. -/
def ManagedProcess.isAlive (m : ManagedProcess) : Bool :=
  match m.proc with
  | some h => h.alive
  | none => false

/-- ManagedProcess.is_running property: state is RUNNING and a fresh
liveness probe succeeds. -/
def ManagedProcess.isRunning (m : ManagedProcess) : Bool :=
  m.state == .running && m.isAlive

/-- ManagedProcess.get_pid: `self._pid if self._is_alive() else None`. -/
def ManagedProcess.getPid (m : ManagedProcess) : Option Nat :=
  if m.isAlive then m.pidField else none

/-- Outcome of the subprocess.Popen call in ManagedProcess.start. -/
inductive LaunchOutcome
  | ok (pid : Nat)
  | fileNotFound
  | permissionError
  | otherError
deriving DecidableEq, Repr

/-- Environment for one ManagedProcess.start call: what Popen does, and
whether the child is still alive when probed after the settle delay. -/
structure StartEnv where
  launch : LaunchOutcome
  aliveAfterDelay : Bool
deriving DecidableEq, Repr

/-- Result of ManagedProcess.start: the updated handle, whether the
RuntimeError precondition branch fired, the boolean return value, and
whether Popen was actually invoked. -/
structure StartResult where
  handle : ManagedProcess
  raisedAlreadyRunning : Bool
  ok : Bool
  launched : Bool
deriving DecidableEq, Repr

/-- ManagedProcess.start.  Raises RuntimeError if state is RUNNING; else
launches, moving to ERROR on a launch exception; else waits the settle
delay and moves to RUNNING if the child is still alive, otherwise to
ERROR with the native handle dropped. -/
def ManagedProcess.start (env : StartEnv) (m : ManagedProcess) : StartResult :=
  if m.state = .running then
    { handle := m, raisedAlreadyRunning := true, ok := false, launched := false }
  else
    match env.launch with
    | .ok pid =>
        let m1 : ManagedProcess :=
          { m with state := .starting, proc := some ⟨pid, env.aliveAfterDelay⟩,
                   pidField := some pid }
        if m1.isAlive then
          { handle := { m1 with state := .running },
            raisedAlreadyRunning := false, ok := true, launched := true }
        else
          { handle := { m1 with state := .error, proc := none },
            raisedAlreadyRunning := false, ok := false, launched := true }
    | _ =>
        { handle := { m with state := .error },
          raisedAlreadyRunning := false, ok := false, launched := false }

/-- Environment for one ManagedProcess.stop call: whether the try-block
raises (terminate or kill throwing), whether the graceful wait times out,
and whether the post-kill wait times out. -/
structure StopEnv where
  raisesInTry : Bool
  gracefulTimeout : Bool
  killWaitTimeout : Bool
deriving DecidableEq, Repr

/-- Result of ManagedProcess.stop: updated handle and boolean return. -/
structure StopResult where
  handle : ManagedProcess
  ok : Bool
deriving DecidableEq, Repr

/-- ManagedProcess.stop.  No-op if already STOPPED; if no native handle,
just records STOPPED.  Otherwise terminate, wait, escalate to kill; the
finally clause always clears `proc` and `_pid` and sets STOPPED, while
the return value reports whether termination was confirmed. -/
def ManagedProcess.stop (env : StopEnv) (m : ManagedProcess) : StopResult :=
  if m.state = .stopped then
    { handle := m, ok := true }
  else if m.proc = none then
    { handle := { m with state := .stopped }, ok := true }
  else
    let cleared : ManagedProcess :=
      { m with state := .stopped, proc := none, pidField := none }
    if env.raisesInTry then
      { handle := cleared, ok := false }
    else if env.gracefulTimeout then
      if env.killWaitTimeout then
        { handle := cleared, ok := false }
      else
        { handle := cleared, ok := true }
    else
      { handle := cleared, ok := true }

/-- ProcessRegistry: the list `self.processes`. -/
structure ProcessRegistry where
  processes : List ManagedProcess
deriving Repr

/-- ProcessRegistry.register: idempotent append. -/
def ProcessRegistry.register (p : ManagedProcess) (r : ProcessRegistry) : ProcessRegistry :=
  if p ∈ r.processes then r else { processes := r.processes ++ [p] }

/-- ProcessRegistry.unregister: idempotent removal. -/
def ProcessRegistry.unregister (p : ManagedProcess) (r : ProcessRegistry) : ProcessRegistry :=
  { processes := r.processes.filter (fun q => q ≠ p) }

/-- Helper for ProcessRegistry.stop_all: walk the snapshot in order,
calling stop on each handle with its own environment; the surrounding
try/except means a failing stop never aborts the sweep. -/
def stopAllAux (envs : Nat → StopEnv) : Nat → List ManagedProcess → List ManagedProcess
  | _, [] => []
  | i, p :: ps => (p.stop (envs i)).handle :: stopAllAux envs (i + 1) ps

/-- ProcessRegistry.stop_all: iterates a copy of the registered list and
stops every handle. -/
def ProcessRegistry.stopAll (envs : Nat → StopEnv) (r : ProcessRegistry) : ProcessRegistry :=
  { processes := stopAllAux envs 0 r.processes }

/-- ProcessRegistry.get_running_count. -/
def ProcessRegistry.runningCount (r : ProcessRegistry) : Nat :=
  (r.processes.filter (fun p => p.isRunning)).length

/-! ### Shared lemmas about stop -/

/-- After any stop call the handle is in state STOPPED. -/
theorem stop_handle_state (env : StopEnv) (m : ManagedProcess) :
    ((m.stop env).handle).state = .stopped := by
  unfold ManagedProcess.stop
  split
  · next h => simpa using h
  · split
    · rfl
    · simp only []
      split
      · rfl
      · split
        · split
          · rfl
          · rfl
        · rfl

/-- A handle whose state is not RUNNING is not running. -/
theorem isRunning_false_of_state_ne (m : ManagedProcess) (h : m.state ≠ .running) :
    m.isRunning = false := by
  unfold ManagedProcess.isRunning
  have : (m.state == .running) = false := by
    cases hs : m.state <;> simp_all
  simp [this]

/-- After any stop call the handle is not running. -/
theorem stop_handle_not_running (env : StopEnv) (m : ManagedProcess) :
    ((m.stop env).handle).isRunning = false := by
  apply isRunning_false_of_state_ne
  rw [stop_handle_state]
  intro h
  exact ProcessState.noConfusion h

/-- Every element of a stop sweep is in state STOPPED. -/
theorem stopAllAux_all_stopped (envs : Nat → StopEnv) (i : Nat)
    (ps : List ManagedProcess) :
    ∀ m ∈ stopAllAux envs i ps, m.state = .stopped := by
  induction ps generalizing i with
  | nil => intro m hm; simp [stopAllAux] at hm
  | cons p ps ih =>
      intro m hm
      simp only [stopAllAux, List.mem_cons] at hm
      rcases hm with h | h
      · subst h; exact stop_handle_state _ _
      · exact ih (i + 1) m h

/-- A stop sweep preserves the length of the snapshot. -/
theorem stopAllAux_length (envs : Nat → StopEnv) (i : Nat)
    (ps : List ManagedProcess) :
    (stopAllAux envs i ps).length = ps.length := by
  induction ps generalizing i with
  | nil => rfl
  | cons p ps ih => simp [stopAllAux, ih]

/-! ### Claim C1 -/

/-- C1: ProcessRegistry.stop_all attempts Stop on every registered handle
(one result per registered handle, each having gone through stop), a
failing stop on one handle never prevents stopping the rest (the sweep is
total over the snapshot for every choice of per-handle failure
environments), and afterwards every handle is STOPPED and the running
count is 0. -/
theorem stopAll_stops_everything (envs : Nat → StopEnv) (r : ProcessRegistry) :
    ((r.stopAll envs).processes.length = r.processes.length) ∧
    (∀ m ∈ (r.stopAll envs).processes, m.state = .stopped) ∧
    (r.stopAll envs).runningCount = 0 := by
  refine ⟨stopAllAux_length envs 0 r.processes,
          stopAllAux_all_stopped envs 0 r.processes, ?_⟩
  unfold ProcessRegistry.runningCount
  have hall : ∀ m ∈ (r.stopAll envs).processes, m.isRunning = false := by
    intro m hm
    apply isRunning_false_of_state_ne
    rw [stopAllAux_all_stopped envs 0 r.processes m hm]
    intro h
    exact ProcessState.noConfusion h
  rw [List.length_eq_zero, List.filter_eq_nil_iff]
  intro m hm
  simp [hall m hm]

/-! ### Claim C2 -/

/-- C2: after Stop returns, the handle state is STOPPED, the native
handle is dropped, the observable pid is gone and IsRunning is false, in
every termination scenario; when the forced kill cannot be confirmed
(graceful wait timed out and the post-kill wait timed out too), the
failure is still reported through the boolean return value.  The
hypothesis is the reachable-state invariant from the spec data model: a
handle in state STOPPED holds no native handle. -/
theorem stop_leaves_handle_stopped (env : StopEnv) (m : ManagedProcess)
    (hwf : m.state = .stopped → m.proc = none) :
    ((m.stop env).handle).state = .stopped ∧
    ((m.stop env).handle).proc = none ∧
    ((m.stop env).handle).getPid = none ∧
    ((m.stop env).handle).isRunning = false ∧
    (m.state ≠ .stopped → m.proc ≠ none →
      env.raisesInTry = false → env.gracefulTimeout = true →
      env.killWaitTimeout = true → (m.stop env).ok = false) := by
  have hproc : ((m.stop env).handle).proc = none := by
    unfold ManagedProcess.stop
    split
    · next h => simpa using hwf h
    · split
      · next h => simpa using h
      · simp only []
        split
        · rfl
        · split
          · split
            · rfl
            · rfl
          · rfl
  refine ⟨stop_handle_state env m, hproc, ?_, stop_handle_not_running env m, ?_⟩
  · simp [ManagedProcess.getPid, ManagedProcess.isAlive, hproc]
  · intro hs hp hraise hgrace hkill
    unfold ManagedProcess.stop
    rw [if_neg hs, if_neg hp]
    simp [hraise, hgrace, hkill]

/-- Sample RUNNING handle used by the witnesses. -/
def sampleRunning : ManagedProcess :=
  { name := "VideoStream", state := .running, proc := some ⟨42, true⟩, pidField := some 42 }

/-- Stop environment in which the graceful wait and the post-kill wait
both time out: the forced kill cannot be confirmed. -/
def unconfirmedKillEnv : StopEnv :=
  { raisesInTry := false, gracefulTimeout := true, killWaitTimeout := true }

/-- Witness for C2: a concrete RUNNING handle stopped in the
unconfirmed-kill scenario ends STOPPED, released and not running, with a
false return value. -/
theorem stop_leaves_handle_stopped_witness :
    ((sampleRunning.stop unconfirmedKillEnv).handle).state = .stopped ∧
    ((sampleRunning.stop unconfirmedKillEnv).handle).proc = none ∧
    ((sampleRunning.stop unconfirmedKillEnv).handle).getPid = none ∧
    ((sampleRunning.stop unconfirmedKillEnv).handle).isRunning = false ∧
    (sampleRunning.state ≠ .stopped → sampleRunning.proc ≠ none →
      unconfirmedKillEnv.raisesInTry = false →
      unconfirmedKillEnv.gracefulTimeout = true →
      unconfirmedKillEnv.killWaitTimeout = true →
      (sampleRunning.stop unconfirmedKillEnv).ok = false) :=
  stop_leaves_handle_stopped unconfirmedKillEnv sampleRunning (by decide)

/-! ### Claim C3 -/

/-- C3: calling Start on a handle whose state is RUNNING raises the
already-running RuntimeError, launches nothing, and leaves the handle
unchanged. -/
theorem start_when_running_raises (env : StartEnv) (m : ManagedProcess)
    (h : m.state = .running) :
    m.start env =
      { handle := m, raisedAlreadyRunning := true, ok := false, launched := false } := by
  unfold ManagedProcess.start
  simp [h]

/-- Start environment with a successful launch, used by the witnesses. -/
def sampleStartEnv : StartEnv := { launch := .ok 99, aliveAfterDelay := true }

/-- Witness for C3: a concrete RUNNING handle refuses a second Start. -/
theorem start_when_running_raises_witness :
    sampleRunning.start sampleStartEnv =
      { handle := sampleRunning,
        raisedAlreadyRunning := true, ok := false, launched := false } :=
  start_when_running_raises sampleStartEnv sampleRunning (by decide)

/-! ## Embedding of fakecam/core/device_setup.py -/

/-- DeviceSetupError carrying its message. -/
structure DeviceSetupError where
  msg : String
deriving DecidableEq, Repr

/-- OS-visible state of the video resource family: whether v4l2loopback
appears in lsmod and whether /dev/video10 exists as a character device. -/
structure VideoWorld where
  moduleLoaded : Bool
  deviceIsCharNode : Bool
deriving DecidableEq, Repr

/-- Outcome of one `sudo modprobe -r v4l2loopback` attempt inside the
cleanup retry loop: exit 0, exit nonzero with "in use" on stderr, or
some other nonzero exit. -/
inductive UnloadAttempt
  | ok
  | busy
  | fail
deriving DecidableEq, Repr

/-- Outcome of the `sudo modprobe v4l2loopback ...` load call. -/
inductive LoadOutcome
  | ok
  | exitNonzero
  | timeout
  | notFound
deriving DecidableEq, Repr

/-- Environment for one VideoDeviceManager.setup call: the outcome of
each external command it may issue. -/
structure VideoEnv where
  unloadAttempt : Nat → UnloadAttempt
  loadOutcome : LoadOutcome
  deviceAppearsAfterLoad : Bool

/-- MAX_CLEANUP_RETRIES from config.py. -/
def MAX_CLEANUP_RETRIES : Nat := 3

/-- The modprobe-remove retry loop of cleanup_existing_devices: returns
whether the module ended up unloaded.  On exit 0 it stops with success;
on "in use" it force-kills residual users and retries; on any other
failure it breaks out, leaving the module loaded (the function still
returns True to its caller). -/
def videoUnloadLoop (env : VideoEnv) : Nat → Nat → Bool
  | _, 0 => false
  | i, fuel + 1 =>
    match env.unloadAttempt i with
    | .ok => true
    | .busy => videoUnloadLoop env (i + 1) fuel
    | .fail => false

/-- VideoDeviceManager.cleanup_existing_devices: best-effort process
kills (no modelled effect on the module), then the bounded unload loop
when the module is loaded.  A successful unload removes the module and
its device node. -/
def videoCleanup (env : VideoEnv) (w : VideoWorld) : VideoWorld :=
  if w.moduleLoaded then
    if videoUnloadLoop env 0 MAX_CLEANUP_RETRIES then
      { moduleLoaded := false, deviceIsCharNode := false }
    else
      w
  else
    w

/-- VideoDeviceManager.load_module: a failing, timed-out or missing
modprobe raises DeviceSetupError; a successful modprobe loads the module
and may or may not make the device node appear, and the verification
probe (`is_device_available`) turns its absence into DeviceSetupError. -/
def videoLoadModule (env : VideoEnv) (w : VideoWorld) :
    VideoWorld × Option DeviceSetupError :=
  match env.loadOutcome with
  | .exitNonzero => (w, some ⟨"Failed to load module"⟩)
  | .timeout => (w, some ⟨"Module load timed out"⟩)
  | .notFound => (w, some ⟨"modprobe command not found"⟩)
  | .ok =>
      let w1 : VideoWorld :=
        { moduleLoaded := true, deviceIsCharNode := env.deviceAppearsAfterLoad }
      if w1.deviceIsCharNode then
        (w1, none)
      else
        (w1, some ⟨"Module loaded but device not created"⟩)

/-- VideoDeviceManager state: the `is_setup` flag. -/
structure VideoDeviceManager where
  isSetup : Bool
deriving DecidableEq, Repr

/-- VideoDeviceManager.setup: cleanup, then load (fatal on failure), then
the non-fatal permission and format steps, then `is_setup = True`.  The
permission and format steps touch no state observed by the spec claims
and are absorbed into the success branch. -/
def VideoDeviceManager.setup (env : VideoEnv) (mgr : VideoDeviceManager)
    (w : VideoWorld) :
    (VideoDeviceManager × VideoWorld) × Option DeviceSetupError :=
  let w1 := videoCleanup env w
  match videoLoadModule env w1 with
  | (w2, some e) => ((mgr, w2), some e)
  | (w2, none) => (({ isSetup := true }, w2), none)

/-- OS-visible state of the audio resource family: the ids of loaded
fakemic null-sink modules (the `pactl list short modules` view), whether
the fakemic sink appears in `pactl list short sinks`, and a fresh-id
counter for module ids handed out by load-module. -/
structure AudioWorld where
  sinkModules : List Nat
  sinkListed : Bool
  nextModuleId : Nat
deriving DecidableEq, Repr

/-- Environment for one AudioDeviceManager.setup call.  Cleanup is
best-effort, so its failure modes are explicit: the module listing can
time out (get_sink_module_ids then returns the empty list), and each
pactl unload-module call can fail silently (TimeoutExpired is caught and
a nonzero exit is never checked), leaving that module loaded. -/
structure AudioEnv where
  pactlPresent : Bool
  listModulesTimeout : Bool
  unloadFails : Nat → Bool
  loadSinkOutcome : LoadOutcome
  stdoutParsesId : Bool
  sinkAppearsAfterLoad : Bool

/-- AudioDeviceManager.get_sink_module_ids: the fakemic null-sink module
ids visible through pactl, or the empty list when pactl is absent or the
module listing times out. -/
def audioSinkModuleIds (env : AudioEnv) (w : AudioWorld) : List Nat :=
  if env.pactlPresent && !env.listModulesTimeout then w.sinkModules else []

/-- The unload loop of cleanup_existing_sinks over the listed module
ids: each pactl unload-module call either removes its module or fails
silently (caught timeout, ignored nonzero exit), in which case the
module survives.  Returns the surviving modules. -/
def audioUnloadSweep (env : AudioEnv) : Nat → List Nat → List Nat
  | _, [] => []
  | i, id :: rest =>
      if env.unloadFails i then id :: audioUnloadSweep env (i + 1) rest
      else audioUnloadSweep env (i + 1) rest

/-- AudioDeviceManager.cleanup_existing_sinks: best-effort process kills,
then unloads every fakemic null-sink module the listing reported, each
unload call individually fallible; a sink disappears from the sink
listing only when no backing module survives.  The function always
returns True, so no failure here is ever surfaced. -/
def audioCleanup (env : AudioEnv) (w : AudioWorld) : AudioWorld :=
  if env.pactlPresent && !env.listModulesTimeout then
    let survivors := audioUnloadSweep env 0 w.sinkModules
    { w with sinkModules := survivors,
             sinkListed := if survivors.isEmpty then false else w.sinkListed }
  else
    w

/-- AudioDeviceManager state: fields `module_id` and `is_setup`. -/
structure AudioDeviceManager where
  moduleId : Option Nat
  isSetup : Bool
deriving DecidableEq, Repr

/-- AudioDeviceManager.create_sink: a missing pactl, a timeout or a
nonzero exit raises DeviceSetupError; a successful load appends a fresh
module id, optionally parses it into `module_id`, and the verification
probe (`is_sink_loaded`) turns a sink missing from the sink listing into
DeviceSetupError. -/
def audioCreateSink (env : AudioEnv) (mgr : AudioDeviceManager) (w : AudioWorld) :
    (AudioDeviceManager × AudioWorld) × Option DeviceSetupError :=
  if env.pactlPresent then
    match env.loadSinkOutcome with
    | .exitNonzero => ((mgr, w), some ⟨"Failed to create audio sink"⟩)
    | .timeout => ((mgr, w), some ⟨"Sink creation timed out"⟩)
    | .notFound => ((mgr, w), some ⟨"pactl command not found"⟩)
    | .ok =>
        let newId := w.nextModuleId
        let w1 : AudioWorld :=
          { sinkModules := w.sinkModules ++ [newId],
            sinkListed := env.sinkAppearsAfterLoad,
            nextModuleId := newId + 1 }
        let mgr1 := if env.stdoutParsesId then { mgr with moduleId := some newId } else mgr
        if env.sinkAppearsAfterLoad then
          ((mgr1, w1), none)
        else
          ((mgr1, w1), some ⟨"Sink created but not visible in pactl list"⟩)
  else
    ((mgr, w), some ⟨"pactl command not found - is PulseAudio installed?"⟩)

/-- AudioDeviceManager.setup: cleanup, then create_sink (fatal on
failure), then `is_setup = True`. -/
def AudioDeviceManager.setup (env : AudioEnv) (mgr : AudioDeviceManager)
    (w : AudioWorld) :
    (AudioDeviceManager × AudioWorld) × Option DeviceSetupError :=
  let w1 := audioCleanup env w
  match audioCreateSink env mgr w1 with
  | ((mgr1, w2), some e) => ((mgr1, w2), some e)
  | ((mgr1, w2), none) => (({ mgr1 with isSetup := true }, w2), none)

/-- DeviceManager: the composed video and audio managers. -/
structure DeviceManager where
  video : VideoDeviceManager
  audio : AudioDeviceManager
deriving DecidableEq, Repr

/-- DeviceManager.__init__. -/
def DeviceManager.mk0 : DeviceManager :=
  { video := { isSetup := false }, audio := { moduleId := none, isSetup := false } }

/-- The two worlds a DeviceManager acts on. -/
structure Worlds where
  video : VideoWorld
  audio : AudioWorld
deriving DecidableEq, Repr

/-- DeviceManager.setup_all: runs video setup catching DeviceSetupError,
then audio setup catching DeviceSetupError, and returns the pair of
success flags. -/
def DeviceManager.setupAll (ve : VideoEnv) (ae : AudioEnv) (dm : DeviceManager)
    (ws : Worlds) : (DeviceManager × Worlds) × (Bool × Bool) :=
  let vres := dm.video.setup ve ws.video
  let ares := dm.audio.setup ae ws.audio
  ((⟨vres.1.1, ares.1.1⟩, ⟨vres.1.2, ares.1.2⟩), (vres.2.isNone, ares.2.isNone))

/-- The dictionary returned by DeviceManager.get_status. -/
structure DeviceStatus where
  videoDeviceExists : Bool
  videoModuleLoaded : Bool
  videoSetup : Bool
  audioSinkLoaded : Bool
  audioSetup : Bool
deriving DecidableEq, Repr

/-- DeviceManager.get_status: live probes of both worlds plus the two
`is_setup` flags.  The sink probe needs a working pactl. -/
def DeviceManager.getStatus (ae : AudioEnv) (dm : DeviceManager) (ws : Worlds) :
    DeviceStatus :=
  { videoDeviceExists := ws.video.deviceIsCharNode
    videoModuleLoaded := ws.video.moduleLoaded
    videoSetup := dm.video.isSetup
    audioSinkLoaded := ae.pactlPresent && ws.audio.sinkListed
    audioSetup := dm.audio.isSetup }

/-! ### Shared lemmas about setup -/

/-- Cleanup never touches the fresh-id counter. -/
theorem audioCleanup_nextId (env : AudioEnv) (w : AudioWorld) :
    (audioCleanup env w).nextModuleId = w.nextModuleId := by
  unfold audioCleanup
  split <;> rfl

/-- When every unload call succeeds, the sweep removes every listed
module. -/
theorem audioUnloadSweep_nil_of_ok (env : AudioEnv)
    (h : ∀ i, env.unloadFails i = false) :
    ∀ (i : Nat) (l : List Nat), audioUnloadSweep env i l = [] := by
  intro i l
  induction l generalizing i with
  | nil => rfl
  | cons id rest ih => simp [audioUnloadSweep, h, ih]

/-- When pactl works, the listing does not time out and every unload
call succeeds, cleanup removes every pre-existing fakemic module. -/
theorem audioCleanup_empties (env : AudioEnv) (w : AudioWorld)
    (hp : env.pactlPresent = true) (hl : env.listModulesTimeout = false)
    (hu : ∀ i, env.unloadFails i = false) :
    (audioCleanup env w).sinkModules = [] := by
  unfold audioCleanup
  simp [hp, hl, audioUnloadSweep_nil_of_ok env hu]

/-- A successful audio setup appends exactly one fresh module to
whatever survived the best-effort cleanup, and it entails that pactl was
usable. -/
theorem audio_setup_success_world (env : AudioEnv) (mgr : AudioDeviceManager)
    (w : AudioWorld) (h : (AudioDeviceManager.setup env mgr w).2 = none) :
    ((AudioDeviceManager.setup env mgr w).1.2).sinkModules =
      (audioCleanup env w).sinkModules ++ [w.nextModuleId] ∧
    ((AudioDeviceManager.setup env mgr w).1.2).nextModuleId = w.nextModuleId + 1 ∧
    env.pactlPresent = true := by
  have hN := audioCleanup_nextId env w
  revert h
  unfold AudioDeviceManager.setup audioCreateSink
  rcases env with ⟨hp, hlto, hun, hload, hparse, ha⟩
  cases hp <;> cases hload <;> cases ha <;> cases hparse <;> simp [hN]

/-- A successful video setup leaves the module loaded and the device
node present. -/
theorem video_setup_success_world (env : VideoEnv) (mgr : VideoDeviceManager)
    (w : VideoWorld) (h : (VideoDeviceManager.setup env mgr w).2 = none) :
    (VideoDeviceManager.setup env mgr w).1.2 =
      { moduleLoaded := true, deviceIsCharNode := true } := by
  revert h
  unfold VideoDeviceManager.setup videoLoadModule
  rcases env with ⟨hu, hl, hd⟩
  cases hl <;> cases hd <;> simp

/-! ### Claim C4 -/

/-- Audio environment in which every external call behaves. -/
def healthyAudioEnv : AudioEnv :=
  { pactlPresent := true, listModulesTimeout := false,
    unloadFails := fun _ => false, loadSinkOutcome := .ok,
    stdoutParsesId := true, sinkAppearsAfterLoad := true }

/-- Audio environment in which sink creation works but every pactl
unload-module call fails silently, so cleanup removes nothing. -/
def unloadFailAudioEnv : AudioEnv :=
  { pactlPresent := true, listModulesTimeout := false,
    unloadFails := fun _ => true, loadSinkOutcome := .ok,
    stdoutParsesId := true, sinkAppearsAfterLoad := true }

/-- Fresh audio world with nothing loaded. -/
def freshAudioWorld : AudioWorld :=
  { sinkModules := [], sinkListed := false, nextModuleId := 0 }

/-- Counterexample to C4 as stated: two consecutive Setup calls both
succeed, yet the second one leaves two fakemic modules, because the
second cleanup's pactl unload-module call fails silently (its timeout is
caught, its exit status never checked) while the subsequent sink
creation and verification still succeed.  The module count after two
consecutive successful Setups (2) differs from the count after one (1). -/
theorem setup_accumulation_counterexample :
    (AudioDeviceManager.setup healthyAudioEnv ⟨none, false⟩ freshAudioWorld).2 = none ∧
    ((AudioDeviceManager.setup healthyAudioEnv ⟨none, false⟩
       freshAudioWorld).1.2).sinkModules.length = 1 ∧
    (AudioDeviceManager.setup unloadFailAudioEnv
      (AudioDeviceManager.setup healthyAudioEnv ⟨none, false⟩ freshAudioWorld).1.1
      (AudioDeviceManager.setup healthyAudioEnv ⟨none, false⟩ freshAudioWorld).1.2).2 =
      none ∧
    ((AudioDeviceManager.setup unloadFailAudioEnv
       (AudioDeviceManager.setup healthyAudioEnv ⟨none, false⟩ freshAudioWorld).1.1
       (AudioDeviceManager.setup healthyAudioEnv ⟨none, false⟩
         freshAudioWorld).1.2).1.2).sinkModules.length = 2 := by
  refine ⟨by decide, by decide, by decide, by decide⟩

/-- C4 as amended: Setup never silently skips — it always runs the
cleanup phase and then loads exactly one fresh module — but cleanup is
best-effort, so the no-accumulation count holds only when the cleanup
calls themselves succeed.  When, for both Setups, the module listing
does not time out and every unload call succeeds, the audio resource
exists exactly once after each of two consecutive successful Setups (the
same count as after a single Setup), the module backing the first Setup
has been torn down and replaced by a fresh one, and the video resource
exists (module loaded, device node present) after each Setup.  When a
cleanup call fails silently, modules can accumulate across successful
Setups (see the counterexample). -/
theorem setup_rebuilds_without_accumulation
    (ae1 ae2 : AudioEnv) (am : AudioDeviceManager) (aw : AudioWorld)
    (ve1 ve2 : VideoEnv) (vm : VideoDeviceManager) (vw : VideoWorld)
    (ha1 : (AudioDeviceManager.setup ae1 am aw).2 = none)
    (ha2 : (AudioDeviceManager.setup ae2 (AudioDeviceManager.setup ae1 am aw).1.1
             (AudioDeviceManager.setup ae1 am aw).1.2).2 = none)
    (hl1 : ae1.listModulesTimeout = false)
    (hu1 : ∀ i, ae1.unloadFails i = false)
    (hl2 : ae2.listModulesTimeout = false)
    (hu2 : ∀ i, ae2.unloadFails i = false)
    (hv1 : (VideoDeviceManager.setup ve1 vm vw).2 = none)
    (hv2 : (VideoDeviceManager.setup ve2 (VideoDeviceManager.setup ve1 vm vw).1.1
             (VideoDeviceManager.setup ve1 vm vw).1.2).2 = none) :
    ((AudioDeviceManager.setup ae1 am aw).1.2).sinkModules = [aw.nextModuleId] ∧
    ((AudioDeviceManager.setup ae2 (AudioDeviceManager.setup ae1 am aw).1.1
       (AudioDeviceManager.setup ae1 am aw).1.2).1.2).sinkModules =
      [aw.nextModuleId + 1] ∧
    ((AudioDeviceManager.setup ae1 am aw).1.2).sinkModules.length = 1 ∧
    ((AudioDeviceManager.setup ae2 (AudioDeviceManager.setup ae1 am aw).1.1
       (AudioDeviceManager.setup ae1 am aw).1.2).1.2).sinkModules.length = 1 ∧
    ((AudioDeviceManager.setup ae2 (AudioDeviceManager.setup ae1 am aw).1.1
       (AudioDeviceManager.setup ae1 am aw).1.2).1.2).sinkModules.contains
      aw.nextModuleId = false ∧
    (VideoDeviceManager.setup ve1 vm vw).1.2 =
      { moduleLoaded := true, deviceIsCharNode := true } ∧
    (VideoDeviceManager.setup ve2 (VideoDeviceManager.setup ve1 vm vw).1.1
      (VideoDeviceManager.setup ve1 vm vw).1.2).1.2 =
      { moduleLoaded := true, deviceIsCharNode := true } := by
  obtain ⟨hm1, hn1, hp1⟩ := audio_setup_success_world ae1 am aw ha1
  rw [audioCleanup_empties ae1 aw hp1 hl1 hu1, List.nil_append] at hm1
  obtain ⟨hm2, hn2, hp2⟩ := audio_setup_success_world ae2
    (AudioDeviceManager.setup ae1 am aw).1.1 (AudioDeviceManager.setup ae1 am aw).1.2 ha2
  rw [audioCleanup_empties ae2 _ hp2 hl2 hu2, List.nil_append, hn1] at hm2
  refine ⟨hm1, hm2, by rw [hm1]; rfl, by rw [hm2]; rfl, ?_,
    video_setup_success_world ve1 vm vw hv1,
    video_setup_success_world ve2 _ _ hv2⟩
  rw [hm2]
  simp

/-- Video environment in which every external call behaves. -/
def healthyVideoEnv : VideoEnv :=
  { unloadAttempt := fun _ => .ok, loadOutcome := .ok, deviceAppearsAfterLoad := true }

/-- An audio world holding one stale fakemic module. -/
def staleAudioWorld : AudioWorld :=
  { sinkModules := [5], sinkListed := true, nextModuleId := 6 }

/-- A video world with the module already loaded. -/
def staleVideoWorld : VideoWorld :=
  { moduleLoaded := true, deviceIsCharNode := true }

/-- Witness for C4: two consecutive healthy Setups starting from worlds
that already hold the resources leave each resource exactly once. -/
theorem setup_rebuilds_without_accumulation_witness :
    ((AudioDeviceManager.setup healthyAudioEnv ⟨some 5, true⟩ staleAudioWorld).1.2).sinkModules =
      [staleAudioWorld.nextModuleId] ∧
    ((AudioDeviceManager.setup healthyAudioEnv
       (AudioDeviceManager.setup healthyAudioEnv ⟨some 5, true⟩ staleAudioWorld).1.1
       (AudioDeviceManager.setup healthyAudioEnv ⟨some 5, true⟩ staleAudioWorld).1.2).1.2).sinkModules =
      [staleAudioWorld.nextModuleId + 1] ∧
    ((AudioDeviceManager.setup healthyAudioEnv ⟨some 5, true⟩ staleAudioWorld).1.2).sinkModules.length = 1 ∧
    ((AudioDeviceManager.setup healthyAudioEnv
       (AudioDeviceManager.setup healthyAudioEnv ⟨some 5, true⟩ staleAudioWorld).1.1
       (AudioDeviceManager.setup healthyAudioEnv ⟨some 5, true⟩ staleAudioWorld).1.2).1.2).sinkModules.length = 1 ∧
    ((AudioDeviceManager.setup healthyAudioEnv
       (AudioDeviceManager.setup healthyAudioEnv ⟨some 5, true⟩ staleAudioWorld).1.1
       (AudioDeviceManager.setup healthyAudioEnv ⟨some 5, true⟩ staleAudioWorld).1.2).1.2).sinkModules.contains
      staleAudioWorld.nextModuleId = false ∧
    (VideoDeviceManager.setup healthyVideoEnv ⟨true⟩ staleVideoWorld).1.2 =
      { moduleLoaded := true, deviceIsCharNode := true } ∧
    (VideoDeviceManager.setup healthyVideoEnv
      (VideoDeviceManager.setup healthyVideoEnv ⟨true⟩ staleVideoWorld).1.1
      (VideoDeviceManager.setup healthyVideoEnv ⟨true⟩ staleVideoWorld).1.2).1.2 =
      { moduleLoaded := true, deviceIsCharNode := true } :=
  setup_rebuilds_without_accumulation healthyAudioEnv healthyAudioEnv
    ⟨some 5, true⟩ staleAudioWorld healthyVideoEnv healthyVideoEnv
    ⟨true⟩ staleVideoWorld (by decide) (by decide) (by decide) (fun _ => rfl)
    (by decide) (fun _ => rfl) (by decide) (by decide)

/-! ### Claim C5 -/

/-- C5: when the load step apparently succeeds but the post-load
verification probe does not confirm the resource (video device node not a
character device after modprobe exits 0, or sink name absent from the
sink listing after load-module exits 0), load_module and create_sink
raise DeviceSetupError, and the surrounding setup calls propagate it
instead of reporting success. -/
theorem setup_verify_failure_fatal
    (ve : VideoEnv) (vm : VideoDeviceManager) (vw : VideoWorld)
    (ae : AudioEnv) (am : AudioDeviceManager) (aw : AudioWorld)
    (hvl : ve.loadOutcome = .ok) (hvd : ve.deviceAppearsAfterLoad = false)
    (hap : ae.pactlPresent = true) (hal : ae.loadSinkOutcome = .ok)
    (has : ae.sinkAppearsAfterLoad = false) :
    (videoLoadModule ve vw).2 = some ⟨"Module loaded but device not created"⟩ ∧
    (VideoDeviceManager.setup ve vm vw).2 =
      some ⟨"Module loaded but device not created"⟩ ∧
    (audioCreateSink ae am aw).2 =
      some ⟨"Sink created but not visible in pactl list"⟩ ∧
    (AudioDeviceManager.setup ae am aw).2 =
      some ⟨"Sink created but not visible in pactl list"⟩ := by
  have hvideo : ∀ w : VideoWorld, (videoLoadModule ve w).2 =
      some ⟨"Module loaded but device not created"⟩ := by
    intro w
    unfold videoLoadModule
    rw [hvl]
    simp [hvd]
  have haudio : ∀ (m : AudioDeviceManager) (w : AudioWorld),
      (audioCreateSink ae m w).2 =
        some ⟨"Sink created but not visible in pactl list"⟩ := by
    intro m w
    unfold audioCreateSink
    rw [hap]
    simp only [if_true]
    rw [hal]
    simp [has]
  refine ⟨hvideo vw, ?_, haudio am aw, ?_⟩
  · unfold VideoDeviceManager.setup
    have h2 := hvideo (videoCleanup ve vw)
    rcases hres : videoLoadModule ve (videoCleanup ve vw) with ⟨w2, err⟩
    rw [hres] at h2
    simp only at h2
    subst h2
    simp [hres]
  · unfold AudioDeviceManager.setup
    have h2 := haudio am (audioCleanup ae aw)
    rcases hres : audioCreateSink ae am (audioCleanup ae aw) with ⟨mw, err⟩
    rw [hres] at h2
    simp only at h2
    subst h2
    rcases mw with ⟨m1, w1⟩
    simp [hres]

/-- Video environment whose modprobe succeeds but whose device node
never appears. -/
def verifyFailVideoEnv : VideoEnv :=
  { unloadAttempt := fun _ => .ok, loadOutcome := .ok, deviceAppearsAfterLoad := false }

/-- Audio environment whose load-module succeeds but whose sink never
shows up in the sink listing. -/
def verifyFailAudioEnv : AudioEnv :=
  { pactlPresent := true, listModulesTimeout := false,
    unloadFails := fun _ => false, loadSinkOutcome := .ok,
    stdoutParsesId := true, sinkAppearsAfterLoad := false }

/-- Witness for C5: the verification-failure environments produce
DeviceSetupError from both guards. -/
theorem setup_verify_failure_fatal_witness :
    (videoLoadModule verifyFailVideoEnv staleVideoWorld).2 =
      some ⟨"Module loaded but device not created"⟩ ∧
    (VideoDeviceManager.setup verifyFailVideoEnv ⟨false⟩ staleVideoWorld).2 =
      some ⟨"Module loaded but device not created"⟩ ∧
    (audioCreateSink verifyFailAudioEnv ⟨none, false⟩ staleAudioWorld).2 =
      some ⟨"Sink created but not visible in pactl list"⟩ ∧
    (AudioDeviceManager.setup verifyFailAudioEnv ⟨none, false⟩ staleAudioWorld).2 =
      some ⟨"Sink created but not visible in pactl list"⟩ :=
  setup_verify_failure_fatal verifyFailVideoEnv ⟨false⟩ staleVideoWorld
    verifyFailAudioEnv ⟨none, false⟩ staleAudioWorld
    (by decide) (by decide) (by decide) (by decide) (by decide)

/-! ### Claim C6 -/

/-- Audio environment on a system with no pactl: sink creation fails
with "pactl command not found". -/
def noPactlEnv : AudioEnv :=
  { pactlPresent := false, listModulesTimeout := false,
    unloadFails := fun _ => false, loadSinkOutcome := .ok,
    stdoutParsesId := false, sinkAppearsAfterLoad := false }

/-- Fresh worlds with no resources present. -/
def emptyWorlds : Worlds :=
  { video := { moduleLoaded := false, deviceIsCharNode := false },
    audio := { sinkModules := [], sinkListed := false, nextModuleId := 0 } }

/-- C6: setup_all runs the video and the audio guard independently: each
success flag equals the outcome of that guard run on its own world, so a
fatal failure in one never prevents attempting the other.  In the
concrete scenario where the audio tool (pactl) is missing and video
setup succeeds, setup_all returns (videoOk = true, audioOk = false) and
the subsequent status reports video_setup = true and
audio_setup = false. -/
theorem setupAll_independent_and_partial
    (ve : VideoEnv) (ae : AudioEnv) (dm : DeviceManager) (ws : Worlds) :
    ((dm.setupAll ve ae ws).2.1 = (dm.video.setup ve ws.video).2.isNone ∧
     (dm.setupAll ve ae ws).2.2 = (dm.audio.setup ae ws.audio).2.isNone) ∧
    ((DeviceManager.mk0.setupAll healthyVideoEnv noPactlEnv emptyWorlds).2 =
       (true, false) ∧
     (DeviceManager.getStatus noPactlEnv
       (DeviceManager.mk0.setupAll healthyVideoEnv noPactlEnv emptyWorlds).1.1
       (DeviceManager.mk0.setupAll healthyVideoEnv noPactlEnv emptyWorlds).1.2).videoSetup =
       true ∧
     (DeviceManager.getStatus noPactlEnv
       (DeviceManager.mk0.setupAll healthyVideoEnv noPactlEnv emptyWorlds).1.1
       (DeviceManager.mk0.setupAll healthyVideoEnv noPactlEnv emptyWorlds).1.2).audioSetup =
       false) := by
  refine ⟨⟨rfl, rfl⟩, by decide, by decide, by decide⟩

/-! ## Embedding of fakecam/core/video_manager.py -/

/-- Video width from Config.get_video_settings. -/
def configWidth (vmMode : Bool) : Nat := if vmMode then 360 else 640

/-- Video height from Config.get_video_settings. -/
def configHeight (vmMode : Bool) : Nat := if vmMode then 240 else 480

/-- Video framerate from Config.get_video_settings. -/
def configFramerate (vmMode : Bool) : Nat := if vmMode then 15 else 30

/-- Config.DEFAULT_PIXEL_FORMAT. -/
def DEFAULT_PIXEL_FORMAT : String := "yuyv422"

/-- Config.FFMPEG_VM_FLAGS. -/
def FFMPEG_VM_FLAGS : List String := ["-preset", "ultrafast", "-bufsize", "1M"]

/-- VideoManager._build_test_pattern_command. -/
def buildTestPatternCommand (vmMode : Bool) (devicePath : String) : List String :=
  ["ffmpeg", "-re", "-f", "lavfi",
   "-i", "testsrc2=size=" ++ toString (configWidth vmMode) ++ "x" ++
         toString (configHeight vmMode) ++ ":rate=" ++ toString (configFramerate vmMode),
   "-pix_fmt", DEFAULT_PIXEL_FORMAT, "-f", "v4l2", "-vcodec", "rawvideo"] ++
  (if vmMode then FFMPEG_VM_FLAGS else []) ++ [devicePath]

/-- VideoManager._build_video_file_command.  The leading VIDEO_DIR
(HOME/fakecam_videos) is abstracted to the fixed directory prefix. -/
def buildVideoFileCommand (vmMode : Bool) (devicePath : String) (file : String) :
    List String :=
  ["ffmpeg", "-re", "-stream_loop", "-1", "-i", "fakecam_videos/" ++ file,
   "-vf", "scale=" ++ toString (configWidth vmMode) ++ ":" ++ toString (configHeight vmMode),
   "-pix_fmt", DEFAULT_PIXEL_FORMAT, "-f", "v4l2", "-vcodec", "rawvideo"] ++
  (if vmMode then FFMPEG_VM_FLAGS else []) ++ [devicePath]

/-- VideoManager._build_fallback_command: the blue-screen degraded
built-in source. -/
def buildFallbackCommand (vmMode : Bool) (devicePath : String) : List String :=
  ["ffmpeg", "-re", "-f", "lavfi",
   "-i", "color=c=blue:s=" ++ toString (configWidth vmMode) ++ "x" ++
         toString (configHeight vmMode) ++ ":r=" ++ toString (configFramerate vmMode),
   "-pix_fmt", DEFAULT_PIXEL_FORMAT, "-f", "v4l2", devicePath]

/-- The `type` field of a Config.VIDEO_LIBRARY entry. -/
inductive VideoSourceType
  | generated
  | download
deriving DecidableEq, Repr

/-- One Config.VIDEO_LIBRARY entry. -/
structure VideoInfo where
  type : VideoSourceType
  file : Option String
  url : Option String
deriving DecidableEq, Repr

/-- Config.VIDEO_LIBRARY. -/
def VIDEO_LIBRARY : List (String × VideoInfo) :=
  [("Test Pattern", ⟨.generated, none, none⟩),
   ("🏄 Surfing HD", ⟨.download, some "surfing.mp4",
      some "https://filesamples.com/samples/video/mp4/sample_1280x720_surfing_with_audio.mp4"⟩),
   ("🌊 Ocean Waves", ⟨.download, some "ocean.mp4",
      some "https://filesamples.com/samples/video/mp4/sample_960x540_ocean_with_audio.mp4"⟩)]

/-- VideoManager state: device path, the owned ManagedProcess, the
recorded active source name and the VM-optimization flag. -/
structure VideoManager where
  devicePath : String
  proc : ManagedProcess
  currentSource : Option String
  vmMode : Bool
deriving DecidableEq, Repr

/-- VideoManager.is_running property. -/
def VideoManager.isRunning (v : VideoManager) : Bool := v.proc.isRunning

/-- Environment for one VideoManager.start call: filesystem probe of the
backing file, downloader outcome, and the two possible process starts. -/
structure VideoStartEnv where
  fileExists : Bool
  downloadOk : Bool
  firstStart : StartEnv
  secondStart : StartEnv
deriving DecidableEq, Repr

/-- Outcome of VideoManager.start: a raised VideoManagerError or the
updated manager with True returned. -/
inductive VStartOutcome
  | raised (msg : String)
  | ok (mgr : VideoManager)
deriving DecidableEq, Repr

/-- Whether the outcome is a raised error. -/
def VStartOutcome.isRaised : VStartOutcome → Bool
  | .raised _ => true
  | .ok _ => false

/-- The recorded active source of a successful outcome. -/
def VStartOutcome.sourceOf : VStartOutcome → Option String
  | .raised _ => none
  | .ok m => m.currentSource

/-- Result of VideoManager.start, also recording every command handed to
ManagedProcess.start, in order. -/
structure VideoStartResult where
  outcome : VStartOutcome
  startedCmds : List (List String)
deriving DecidableEq, Repr

/-- VideoManager.start: rejects a running stream, rejects unknown
sources, resolves the command (falling back to the blue-screen command
when the backing file is absent and the download raises), starts the
process, and on a failed start retries once with the fallback command,
recording "Fallback (Blue Screen)" as active only in that second case. -/
def VideoManager.start (env : VideoStartEnv) (v : VideoManager) (source : String) :
    VideoStartResult :=
  if v.isRunning then
    { outcome := .raised "Video is already running", startedCmds := [] }
  else
    match VIDEO_LIBRARY.lookup source with
    | none =>
        { outcome := .raised ("Unknown video source: " ++ source), startedCmds := [] }
    | some info =>
        let cmd : List String :=
          match info.type with
          | .generated => buildTestPatternCommand v.vmMode v.devicePath
          | .download =>
              if env.fileExists then
                buildVideoFileCommand v.vmMode v.devicePath (info.file.getD "")
              else if env.downloadOk then
                buildVideoFileCommand v.vmMode v.devicePath (info.file.getD "")
              else
                buildFallbackCommand v.vmMode v.devicePath
        let r1 := v.proc.start env.firstStart
        if r1.raisedAlreadyRunning then
          { outcome := .raised "Failed to start video: already running",
            startedCmds := [cmd] }
        else if r1.ok then
          { outcome := .ok { v with proc := r1.handle, currentSource := some source },
            startedCmds := [cmd] }
        else
          let fcmd := buildFallbackCommand v.vmMode v.devicePath
          let r2 := r1.handle.start env.secondStart
          if r2.raisedAlreadyRunning then
            { outcome := .raised "Failed to start video: already running",
              startedCmds := [cmd, fcmd] }
          else if r2.ok then
            { outcome := .ok { v with
                proc := r2.handle,
                currentSource := some "Fallback (Blue Screen)" },
              startedCmds := [cmd, fcmd] }
          else
            { outcome := .raised "Failed to start video: Both primary and fallback video failed",
              startedCmds := [cmd, fcmd] }

/-! ## Embedding of fakecam/core/audio_manager.py -/

/-- The (possibly absent) `type` field of a Config.AUDIO_LIBRARY entry;
entries without the field are speech sources. -/
inductive AudioSourceType
  | voice
  | tone
  | silence
deriving DecidableEq, Repr

/-- One Config.AUDIO_LIBRARY entry.  The synthesis texts are abbreviated;
their content plays no role in any claim. -/
structure AudioInfo where
  type : AudioSourceType
  file : Option String
  text : Option String
deriving DecidableEq, Repr

/-- Config.AUDIO_LIBRARY. -/
def AUDIO_LIBRARY : List (String × AudioInfo) :=
  [("🎤 Meeting Voice", ⟨.voice, some "meeting_voice.wav",
      some "Hello everyone... Thanks for joining the meeting today."⟩),
   ("💼 Professional Talk", ⟨.voice, some "professional.wav",
      some "Good morning everyone. I will be presenting our quarterly results today."⟩),
   ("☕ Casual Chat", ⟨.voice, some "casual_chat.wav",
      some "Hey! How is it going?"⟩),
   ("🎯 Quick Update", ⟨.voice, some "quick_update.wav",
      some "Hi folks, just a quick update here..."⟩),
   ("🔊 Test Audio", ⟨.voice, some "test_audio.wav",
      some "Testing, testing, one two three..."⟩),
   ("🎵 Simple Tone", ⟨.tone, some "tone.wav", none⟩),
   ("🔇 Silence", ⟨.silence, none, none⟩)]

/-- AudioManager._build_audio_stream_command.  The AUDIO_DIR prefix is
abstracted to the fixed directory prefix and DEFAULT_VOLUME renders as
its literal. -/
def buildAudioStreamCommand (sinkName : String) (file : String) : List String :=
  ["ffmpeg", "-re", "-stream_loop", "-1", "-i", "fakecam_audio/" ++ file,
   "-af", "volume=2.5", "-f", "pulse", sinkName]

/-- AudioManager state: sink name, the owned ManagedProcess, the
recorded active source and the no-process silence mode flag. -/
structure AudioManager where
  sinkName : String
  proc : ManagedProcess
  currentSource : Option String
  silenceMode : Bool
deriving DecidableEq, Repr

/-- AudioManager.is_running property: process running or silence mode. -/
def AudioManager.isRunning (a : AudioManager) : Bool :=
  a.proc.isRunning || a.silenceMode

/-- Environment for one AudioManager.start call: backing-file probe,
generation outcome, post-generation file probe, and the process start. -/
structure AudioStartEnv where
  fileExists : Bool
  genOk : Bool
  fileExistsAfterGen : Bool
  procStart : StartEnv
deriving DecidableEq, Repr

/-- Outcome of AudioManager.start. -/
inductive AStartOutcome
  | raised (msg : String)
  | ok (mgr : AudioManager)
deriving DecidableEq, Repr

/-- Whether the outcome is a raised error. -/
def AStartOutcome.isRaised : AStartOutcome → Bool
  | .raised _ => true
  | .ok _ => false

/-- AudioManager.start: rejects a running stream and unknown sources;
enters silence mode for the silence source without any process; for
file-backed sources generates the file on demand and raises
AudioManagerError when generation fails or leaves no file; otherwise
starts the streaming process. -/
def AudioManager.start (env : AudioStartEnv) (a : AudioManager) (source : String) :
    AStartOutcome :=
  if a.isRunning then
    .raised "Audio is already running"
  else
    match AUDIO_LIBRARY.lookup source with
    | none => .raised ("Unknown audio source: " ++ source)
    | some info =>
        if info.type = .silence then
          .ok { a with silenceMode := true, currentSource := some source }
        else
          match info.file with
          | none => .raised ("No file specified for source: " ++ source)
          | some _ =>
              let fileReady : Bool :=
                if env.fileExists then true
                else env.genOk && env.fileExistsAfterGen
              if fileReady then
                let r := a.proc.start env.procStart
                if r.raisedAlreadyRunning then
                  .raised "Failed to start audio: already running"
                else if r.ok then
                  .ok { a with proc := r.handle, currentSource := some source }
                else
                  .raised "Failed to start audio: Failed to start audio process"
              else
                .raised ("Failed to generate audio: " ++ source)

/-! ### Shared lemma about a succeeding process start -/

/-- A start whose launch succeeds and whose child survives the settle
delay returns True with the handle RUNNING. -/
theorem start_succeeds (m : ManagedProcess) (pid : Nat) (h : m.state ≠ .running) :
    m.start ⟨.ok pid, true⟩ =
      { handle := { m with
          state := .running,
          proc := some ⟨pid, true⟩,
          pidField := some pid },
        raisedAlreadyRunning := false, ok := true, launched := true } := by
  unfold ManagedProcess.start
  rw [if_neg h]
  simp [ManagedProcess.isAlive]

/-! ### Claim C7 -/

/-- Fresh VideoManager as built by VideoManager.__init__. -/
def freshVideoManager : VideoManager :=
  { devicePath := "/dev/video10", proc := ManagedProcess.mk0 "VideoStream",
    currentSource := none, vmMode := false }

/-- Fresh AudioManager as built by AudioManager.__init__. -/
def freshAudioManager : AudioManager :=
  { sinkName := "fakemic", proc := ManagedProcess.mk0 "AudioStream",
    currentSource := none, silenceMode := false }

/-- Video environment: backing file absent, download fails, both process
starts would succeed. -/
def dlFailEnv : VideoStartEnv :=
  { fileExists := false, downloadOk := false,
    firstStart := ⟨.ok 100, true⟩, secondStart := ⟨.ok 101, true⟩ }

/-- Audio environment: backing file absent and generation fails. -/
def genFailEnv : AudioStartEnv :=
  { fileExists := false, genOk := false, fileExistsAfterGen := false,
    procStart := ⟨.ok 100, true⟩ }

/-- Counterexample to C7 as stated: on a file-backed audio source whose
backing file is absent and whose generation fails, AudioManager.start
raises AudioManagerError instead of falling back to silence; and on the
video side, after a failed download the fallback blue-screen command is
used but the recorded active source is the requested name, not the
fallback. -/
theorem stream_fallback_claim_counterexample :
    AudioManager.start genFailEnv freshAudioManager "🎤 Meeting Voice" =
      .raised "Failed to generate audio: 🎤 Meeting Voice" ∧
    (AudioManager.start genFailEnv freshAudioManager "🎤 Meeting Voice").isRaised = true ∧
    (VideoManager.start dlFailEnv freshVideoManager "🏄 Surfing HD").startedCmds =
      [buildFallbackCommand false "/dev/video10"] ∧
    ((VideoManager.start dlFailEnv freshVideoManager "🏄 Surfing HD").outcome).sourceOf =
      some "🏄 Surfing HD" := by
  refine ⟨by decide, by decide, by decide, by decide⟩

/-- C7 as amended: (video) when the backing file is absent and the
download fails, Start does not raise — it starts the blue-screen
fallback command — but records the requested source name as active; the
fallback label is recorded only when the primary process start itself
fails; (audio) when the backing file is absent and generation fails,
Start raises AudioManagerError rather than falling back to silence. -/
theorem stream_fallback_amended
    (env : VideoStartEnv) (v : VideoManager) (source : String) (info : VideoInfo)
    (pid : Nat)
    (aenv : AudioStartEnv) (a : AudioManager) (asrc : String) (ainfo : AudioInfo)
    (f : String)
    (hstate : v.proc.state ≠ .running)
    (hlook : VIDEO_LIBRARY.lookup source = some info)
    (htype : info.type = .download)
    (hfile : env.fileExists = false) (hdl : env.downloadOk = false)
    (hfs : env.firstStart = ⟨.ok pid, true⟩)
    (harun : a.isRunning = false)
    (halook : AUDIO_LIBRARY.lookup asrc = some ainfo)
    (hatype : ainfo.type ≠ .silence)
    (hafile : ainfo.file = some f)
    (hafe : aenv.fileExists = false)
    (hagen : (aenv.genOk && aenv.fileExistsAfterGen) = false) :
    (VideoManager.start env v source).outcome.isRaised = false ∧
    (VideoManager.start env v source).outcome.sourceOf = some source ∧
    (VideoManager.start env v source).startedCmds =
      [buildFallbackCommand v.vmMode v.devicePath] ∧
    AudioManager.start aenv a asrc = .raised ("Failed to generate audio: " ++ asrc) := by
  have hvrun : v.isRunning = false := isRunning_false_of_state_ne v.proc hstate
  have hstart := start_succeeds v.proc pid hstate
  have hvideo : VideoManager.start env v source =
      { outcome := .ok { v with
          proc := (v.proc.start env.firstStart).handle,
          currentSource := some source },
        startedCmds := [buildFallbackCommand v.vmMode v.devicePath] } := by
    unfold VideoManager.start
    rw [hvrun, hlook]
    simp only [Bool.false_eq_true, if_false]
    rw [htype]
    simp only [hfile, hdl, Bool.false_eq_true, if_false]
    rw [hfs, hstart]
    simp
  refine ⟨?_, ?_, ?_, ?_⟩
  · rw [hvideo]
    rfl
  · rw [hvideo]
    rfl
  · rw [hvideo]
  · unfold AudioManager.start
    rw [harun, halook]
    simp only [Bool.false_eq_true, if_false]
    rw [if_neg hatype, hafile]
    simp only [hafe, Bool.false_eq_true, if_false, hagen]

/-- Witness for the amended C7 at concrete inputs. -/
theorem stream_fallback_amended_witness :
    (VideoManager.start dlFailEnv freshVideoManager "🏄 Surfing HD").outcome.isRaised = false ∧
    (VideoManager.start dlFailEnv freshVideoManager "🏄 Surfing HD").outcome.sourceOf =
      some "🏄 Surfing HD" ∧
    (VideoManager.start dlFailEnv freshVideoManager "🏄 Surfing HD").startedCmds =
      [buildFallbackCommand freshVideoManager.vmMode freshVideoManager.devicePath] ∧
    AudioManager.start genFailEnv freshAudioManager "🎤 Meeting Voice" =
      .raised ("Failed to generate audio: " ++ "🎤 Meeting Voice") :=
  stream_fallback_amended dlFailEnv freshVideoManager "🏄 Surfing HD"
    ⟨.download, some "surfing.mp4",
      some "https://filesamples.com/samples/video/mp4/sample_1280x720_surfing_with_audio.mp4"⟩
    100 genFailEnv freshAudioManager "🎤 Meeting Voice"
    ⟨.voice, some "meeting_voice.wav",
      some "Hello everyone... Thanks for joining the meeting today."⟩
    "meeting_voice.wav"
    (by decide) (by decide) (by decide) (by decide) (by decide) (by decide)
    (by decide) (by decide) (by decide) (by decide) (by decide) (by decide)

/-! ## Embedding of fakecam/utils/tts_engines.py -/

/-- The five TTS engine classes. -/
inductive TTSEngineKind
  | flite
  | pico2wave
  | espeakNG
  | festival
  | espeak
deriving DecidableEq, Repr

/-- Insertion order of the `self.engines` dict in TTSManager.__init__. -/
def ttsEnginesOrder : List TTSEngineKind :=
  [.flite, .pico2wave, .espeakNG, .festival, .espeak]

/-- Config.TTS_ENGINE_PRIORITY. -/
def TTS_ENGINE_PRIORITY : List TTSEngineKind :=
  [.flite, .pico2wave, .espeakNG, .festival, .espeak]

/-- Availability probes: what `which <tool>` reports for each engine. -/
structure TTSProbeEnv where
  available : TTSEngineKind → Bool

/-- TTSManager state: the `_available_engines` cache (None until the
first probe). -/
structure TTSManager where
  cachedAvailable : Option (List TTSEngineKind)
deriving DecidableEq, Repr

/-- TTSManager.__init__: cache empty. -/
def TTSManager.mk0 : TTSManager := { cachedAvailable := none }

/-- Result of get_available_engines: the engine set, the updated
manager, and how many availability probes were executed by this call. -/
structure AvailResult where
  engines : List TTSEngineKind
  mgr : TTSManager
  probes : Nat

/-- TTSManager.get_available_engines: on the first call filters the
engine dict through the availability probes and caches the result; every
later call returns the cache untouched with no probe executed. -/
def TTSManager.getAvailableEngines (env : TTSProbeEnv) (tm : TTSManager) : AvailResult :=
  match tm.cachedAvailable with
  | some l => { engines := l, mgr := tm, probes := 0 }
  | none =>
      let l := ttsEnginesOrder.filter env.available
      { engines := l, mgr := { cachedAvailable := some l },
        probes := ttsEnginesOrder.length }

/-- TTSManager.get_best_engine: first engine of TTS_ENGINE_PRIORITY that
is in the available set, or None. -/
def TTSManager.getBestEngine (env : TTSProbeEnv) (tm : TTSManager) :
    Option TTSEngineKind × TTSManager × Nat :=
  let r := tm.getAvailableEngines env
  (TTS_ENGINE_PRIORITY.find? (fun e => r.engines.contains e), r.mgr, r.probes)

/-- Environment for TTSManager.synthesize: the availability probes and,
for each engine, whether its external synthesis call exits 0 and leaves
the output file. -/
structure SynthEnv where
  probe : TTSProbeEnv
  engineOk : TTSEngineKind → Bool

/-- How a synthesize call ends: a raised exception or a normal boolean
return. -/
inductive SynthOutcome
  | raised (msg : String)
  | returned (ok : Bool)
deriving DecidableEq, Repr

/-- Result of TTSManager.synthesize: the outcome, the updated manager,
the availability probes run, and the number of external synthesis
invocations performed. -/
structure SynthResult where
  outcome : SynthOutcome
  mgr : TTSManager
  probes : Nat
  synthCalls : Nat

/-- TTSManager.synthesize: picks the best available engine; with none
available it logs and returns False (no exception, no external synthesis
call); otherwise it invokes exactly that engine once. -/
def TTSManager.synthesize (env : SynthEnv) (tm : TTSManager) : SynthResult :=
  let r := tm.getBestEngine env.probe
  match r.1 with
  | none => { outcome := .returned false, mgr := r.2.1, probes := r.2.2, synthCalls := 0 }
  | some e => { outcome := .returned (env.engineOk e), mgr := r.2.1, probes := r.2.2,
                synthCalls := 1 }

/-- Outcome of the ffmpeg filter-chain run inside
apply_audio_enhancements. -/
inductive EnhanceOutcome
  | ran (exitZero : Bool) (outputCreated : Bool)
  | timeout
  | raised
deriving DecidableEq, Repr

/-- Environment for one apply_audio_enhancements call. -/
structure EnhanceEnv where
  run : EnhanceOutcome
deriving DecidableEq, Repr

/-- Existence of the input and output artifacts around the enhancement
step. -/
structure FileState where
  inputExists : Bool
  outputExists : Bool
deriving DecidableEq, Repr

/-- TTSManager.apply_audio_enhancements: runs the ffmpeg filter chain;
returns True when it exits 0 and the output exists; when the run
completes but fails, copies the unmodified input over the output (if the
input exists) and still returns False; on a timeout or an exception it
returns False without copying anything. -/
def applyAudioEnhancements (env : EnhanceEnv) (fs : FileState) : FileState × Bool :=
  match env.run with
  | .ran exitZero outputCreated =>
      let fs1 : FileState := { fs with outputExists := outputCreated }
      if exitZero && outputCreated then
        (fs1, true)
      else if fs1.inputExists then
        ({ fs1 with outputExists := true }, false)
      else
        (fs1, false)
  | .timeout => (fs, false)
  | .raised => (fs, false)

/-- Environment for AudioGenerator.generate_speech: the synthesis call,
whether the temp artifact exists afterwards, and the enhancement run. -/
structure SpeechEnv where
  synth : SynthEnv
  tempCreated : Bool
  enhance : EnhanceEnv

/-- Observable result of generate_speech: the boolean return and whether
the output artifact exists afterwards. -/
structure SpeechResult where
  ok : Bool
  outputExists : Bool
deriving DecidableEq, Repr

/-- AudioGenerator.generate_speech: synthesize to the temp file (fail if
synthesis fails or the temp file is missing), then enhance temp into the
output, delete the temp file, and report success only when the
enhancement returned True and the output exists. -/
def generateSpeech (env : SpeechEnv) (tm : TTSManager) : SpeechResult × TTSManager :=
  let sr := tm.synthesize env.synth
  let synthOk : Bool :=
    match sr.outcome with
    | .returned b => b
    | .raised _ => false
  if synthOk && env.tempCreated then
    let er := applyAudioEnhancements env.enhance { inputExists := true, outputExists := false }
    ({ ok := er.2 && er.1.outputExists, outputExists := er.1.outputExists }, sr.mgr)
  else
    ({ ok := false, outputExists := false }, sr.mgr)

/-! ### Claim C8 -/

/-- Synthesis environment in which no backend probes as available. -/
def noEngineEnv : SynthEnv :=
  { probe := { available := fun _ => false }, engineOk := fun _ => false }

/-- Counterexample to C8 as stated: with zero backends available,
synthesize returns the normal value False — it does not raise any typed
error — while indeed making no external synthesis invocation. -/
theorem synthesize_no_backend_counterexample :
    (TTSManager.mk0.synthesize noEngineEnv).outcome = .returned false ∧
    (TTSManager.mk0.synthesize noEngineEnv).synthCalls = 0 := by
  refine ⟨by decide, by decide⟩

/-- C8 as amended: with zero backends probing as available, synthesize
fails by returning False — the code has no NoBackendAvailableError and
raises nothing — and performs no external synthesis invocation. -/
theorem synthesize_no_backend_returns_false (env : SynthEnv) (tm : TTSManager)
    (hc : tm.cachedAvailable = none)
    (hav : ∀ e, env.probe.available e = false) :
    (tm.synthesize env).outcome = .returned false ∧
    (tm.synthesize env).synthCalls = 0 := by
  have hfilter : ttsEnginesOrder.filter env.probe.available = [] := by
    simp [ttsEnginesOrder, hav]
  unfold TTSManager.synthesize TTSManager.getBestEngine TTSManager.getAvailableEngines
  rw [hc]
  simp [hfilter, TTS_ENGINE_PRIORITY]

/-- Witness for the amended C8 at the concrete no-backend environment. -/
theorem synthesize_no_backend_returns_false_witness :
    (TTSManager.mk0.synthesize noEngineEnv).outcome = .returned false ∧
    (TTSManager.mk0.synthesize noEngineEnv).synthCalls = 0 :=
  synthesize_no_backend_returns_false noEngineEnv TTSManager.mk0 rfl (fun _ => rfl)

/-! ### Claim C9 -/

/-- Synthesis environment in which only flite is available and its call
succeeds. -/
def fliteOnlyEnv : SynthEnv :=
  { probe := { available := fun e => e == .flite },
    engineOk := fun _ => true }

/-- Speech environment whose filter chain runs but exits nonzero. -/
def enhanceExitFailSpeechEnv : SpeechEnv :=
  { synth := fliteOnlyEnv, tempCreated := true, enhance := { run := .ran false true } }

/-- Counterexample to C9 as stated: when the filter chain times out the
input is not copied through (the output artifact does not exist and the
call returns False), and even when the filter chain merely exits nonzero
— the one case where the copy does happen — the overall outcome is
reported as a failure: apply_audio_enhancements returns False and
generate_speech reports False, which its callers treat as fatal, not as
a degraded success. -/
theorem enhance_fallback_claim_counterexample :
    applyAudioEnhancements { run := .timeout }
        { inputExists := true, outputExists := false } =
      ({ inputExists := true, outputExists := false }, false) ∧
    (generateSpeech enhanceExitFailSpeechEnv TTSManager.mk0).1 =
      { ok := false, outputExists := true } := by
  refine ⟨by decide, by decide⟩

/-- C9 as amended: only when the filter chain runs to completion and
fails (nonzero exit or no output produced) is the unmodified input
copied through to the output path, and even then the call returns False;
on a timeout or an exception nothing is copied; and generate_speech
treats any enhancement failure as a failed generation (it returns False
even though the copied artifact exists). -/
theorem enhance_fallback_amended
    (fs : FileState) (e o : Bool) (senv : SpeechEnv) (tm : TTSManager)
    (hfail : (e && o) = false)
    (hin : fs.inputExists = true)
    (hsrun : senv.enhance = { run := .ran e o })
    (hsynth : (tm.synthesize senv.synth).outcome = .returned true)
    (htemp : senv.tempCreated = true) :
    (applyAudioEnhancements { run := .ran e o } fs).1.outputExists = true ∧
    (applyAudioEnhancements { run := .ran e o } fs).2 = false ∧
    (applyAudioEnhancements { run := .timeout } fs).1 = fs ∧
    (applyAudioEnhancements { run := .timeout } fs).2 = false ∧
    (applyAudioEnhancements { run := .raised } fs).1 = fs ∧
    (applyAudioEnhancements { run := .raised } fs).2 = false ∧
    (generateSpeech senv tm).1.ok = false ∧
    (generateSpeech senv tm).1.outputExists = true := by
  have henh : ∀ gs : FileState, gs.inputExists = true →
      applyAudioEnhancements { run := EnhanceOutcome.ran e o } gs =
        ({ inputExists := gs.inputExists, outputExists := true }, false) := by
    intro gs hgs
    unfold applyAudioEnhancements
    simp [hfail, hgs]
  have h1 := henh fs hin
  have hspeech : (generateSpeech senv tm).1 = { ok := false, outputExists := true } := by
    have h2 := henh { inputExists := true, outputExists := false } rfl
    unfold generateSpeech
    simp only [hsynth, htemp, hsrun, h2]
    simp
  refine ⟨?_, ?_, rfl, rfl, rfl, rfl, ?_, ?_⟩
  · rw [h1]
  · rw [h1]
  · rw [hspeech]
  · rw [hspeech]

/-- Witness for the amended C9 at concrete inputs. -/
theorem enhance_fallback_amended_witness :
    (applyAudioEnhancements { run := .ran false true }
        { inputExists := true, outputExists := false }).1.outputExists = true ∧
    (applyAudioEnhancements { run := .ran false true }
        { inputExists := true, outputExists := false }).2 = false ∧
    (applyAudioEnhancements { run := .timeout }
        { inputExists := true, outputExists := false }).1 =
      { inputExists := true, outputExists := false } ∧
    (applyAudioEnhancements { run := .timeout }
        { inputExists := true, outputExists := false }).2 = false ∧
    (applyAudioEnhancements { run := .raised }
        { inputExists := true, outputExists := false }).1 =
      { inputExists := true, outputExists := false } ∧
    (applyAudioEnhancements { run := .raised }
        { inputExists := true, outputExists := false }).2 = false ∧
    (generateSpeech enhanceExitFailSpeechEnv TTSManager.mk0).1.ok = false ∧
    (generateSpeech enhanceExitFailSpeechEnv TTSManager.mk0).1.outputExists = true :=
  enhance_fallback_amended
    { inputExists := true, outputExists := false } false true
    enhanceExitFailSpeechEnv TTSManager.mk0
    rfl rfl rfl (by decide) rfl

/-! ### Claim C10 -/

/-- Synthesize runs exactly the availability probes that get_best_engine
(and through it get_available_engines) runs. -/
theorem synthesize_probes (env : SynthEnv) (tm : TTSManager) :
    (tm.synthesize env).probes = (tm.getBestEngine env.probe).2.2 := by
  unfold TTSManager.synthesize
  cases hbest : (TTSManager.getBestEngine env.probe tm).1 <;> simp [hbest]

/-- C10: availability is probed exactly once per TTSManager instance.
The first get_available_engines call on a fresh manager runs one probe
per engine and caches the filtered set; every later
get_available_engines, get_best_engine or synthesize call — under any
later probe environment, including one where tools were installed or
removed — returns the cached set, selects from it, and runs zero
probes. -/
theorem tts_availability_probed_once (env1 env2 : TTSProbeEnv) (senv : SynthEnv) :
    ((TTSManager.mk0.getAvailableEngines env1).probes = ttsEnginesOrder.length) ∧
    ((TTSManager.mk0.getAvailableEngines env1).engines =
      ttsEnginesOrder.filter env1.available) ∧
    ((TTSManager.mk0.getAvailableEngines env1).mgr.cachedAvailable =
      some (ttsEnginesOrder.filter env1.available)) ∧
    (((TTSManager.mk0.getAvailableEngines env1).mgr.getAvailableEngines env2).engines =
      ttsEnginesOrder.filter env1.available) ∧
    (((TTSManager.mk0.getAvailableEngines env1).mgr.getAvailableEngines env2).probes = 0) ∧
    (((TTSManager.mk0.getAvailableEngines env1).mgr.getAvailableEngines env2).mgr =
      (TTSManager.mk0.getAvailableEngines env1).mgr) ∧
    (((TTSManager.mk0.getAvailableEngines env1).mgr.getBestEngine env2).1 =
      TTS_ENGINE_PRIORITY.find?
        (fun e => (ttsEnginesOrder.filter env1.available).contains e)) ∧
    (((TTSManager.mk0.getAvailableEngines env1).mgr.synthesize senv).probes = 0) := by
  refine ⟨rfl, rfl, rfl, rfl, rfl, rfl, rfl, ?_⟩
  rw [synthesize_probes]
  rfl

end Fakecam
